import Mathlib

/-!
Verification development for the face-image batch generator
(`async_image_generator.py`).  The script is embedded shallowly: the
network, the base64 decoder and the PIL image library are parameters
(oracles), machine integers are `Int`/`Nat`, Python floats are modelled
by `ℚ`, and every fallible operation returns `Except`.
-/

namespace AsyncImageGen

instance {ε α : Type} [DecidableEq ε] [DecidableEq α] : DecidableEq (Except ε α)
  | .error a, .error b =>
    if h : a = b then .isTrue (by rw [h])
    else .isFalse (by intro c; injection c; contradiction)
  | .error _, .ok _ => .isFalse (by intro c; exact Except.noConfusion c)
  | .ok _, .error _ => .isFalse (by intro c; exact Except.noConfusion c)
  | .ok a, .ok b =>
    if h : a = b then .isTrue (by rw [h])
    else .isFalse (by intro c; injection c; contradiction)

/-- Image payload bytes (a Python bytes object) modelled as a list of byte values. -/
abbrev Bytes := List Nat

/-- Python truthiness of an optional bytes value: `None` and the empty bytes object
are both falsy; any non-empty payload is truthy. -/
def bytesTruthy : Option Bytes → Bool
  | none => false
  | some bs => !bs.isEmpty

/-- Python `str.endswith`, over the code points of the two strings. -/
def pyEndsWith (s sfx : String) : Bool :=
  sfx.data.isSuffixOf s.data

/-- A directory is modelled as the list of its file names in creation order.
Writing a file that already exists overwrites its contents and adds no new name;
writing a fresh name appends it. -/
def writeFile (folder : List String) (filename : String) : List String :=
  if filename ∈ folder then folder else folder ++ [filename]

/-- The file name `f"{country_group}{next_number}.png"` built by the save loop;
`Nat.repr` models the decimal formatting done by the Python f-string. -/
def imageFileName (country_group : String) (k : Nat) : String :=
  country_group ++ Nat.repr k ++ ".png"

/-- Outcome of one HTTP POST: either a response with a status code and the
`images` array of its JSON body, or a transport failure (an `aiohttp` exception). -/
inductive HttpOutcome where
  | response (status : Nat) (images : List String)
  | transportError (err : String)
deriving DecidableEq

/-- What one call of `generate_image` did: the URLs it posted to, and either the
value it returned (`Option Bytes`) or the exception it raised (`Except.error`). -/
structure GenReturn where
  requests : List String
  result : Except String (Option Bytes)
deriving DecidableEq

/-- Endpoint chosen for the `schnell` model. -/
def urlSchnell : String :=
  "https://api.deepinfra.com/v1/inference/black-forest-labs/FLUX-1-schnell"

/-- Endpoint chosen for the `dev` model. -/
def urlDev : String :=
  "https://api.deepinfra.com/v1/inference/black-forest-labs/FLUX-1-dev"

/-- Python `str.split` with a single-character separator, over code points. -/
def pySplit (s : String) (sep : Char) : List String :=
  (s.data.splitOn sep).map List.asString

/-- The 200-status branch of `generate_image`: take the first element of the
`images` array (IndexError if absent), take the part after the first comma of
the data URI (IndexError if there is no comma), then base64-decode it.
`b64` models `base64.b64decode`; its error is a `binascii` exception. -/
def decodeResponseImage (b64 : String → Except String Bytes)
    (images : List String) : Except String (Option Bytes) :=
  match images.head? with
  | none => .error "IndexError"
  | some s =>
    match (pySplit s ',').get? 1 with
    | none => .error "IndexError"
    | some payload =>
      match b64 payload with
      | .error e => .error e
      | .ok image_bytes => .ok (some image_bytes)

/-- The body of `generate_image` once a URL has been selected: one POST is
issued; a transport failure is an uncaught exception, a non-200 status returns
`None`, a 200 status decodes the first returned image. -/
def genPost (url : String) (outcome : HttpOutcome)
    (b64 : String → Except String Bytes) : GenReturn :=
  { requests := [url]
    result :=
      match outcome with
      | .transportError e => .error e
      | .response status images =>
        if status = 200 then decodeResponseImage b64 images else .ok none }

/-- Embedding of `generate_image`.  `outcome` is the behaviour of the network at
this request.  The prompt and the dimension parameters are sent in the request
body and do not influence control flow.  A model identifier other than
`schnell` or `dev` returns `None` before any request is issued. -/
def generate_image (outcome : HttpOutcome) (b64 : String → Except String Bytes)
    (prompt : String) (width height num_inference_steps : Int)
    (model : String) : GenReturn :=
  if model = "schnell" then genPost urlSchnell outcome b64
  else if model = "dev" then genPost urlDev outcome b64
  else { requests := [], result := .ok none }

/-- Embedding of `save_image`.  `decodeSave` models `PIL.Image.open`, the
optional resize and `Image.save`, which may raise on a malformed payload or on
a filesystem error; resizing changes pixel data only, never the name, so the
resize flag does not affect the folder contents.  A falsy payload prints a
message and performs no write. -/
def save_image (decodeSave : Bytes → Except String Unit) (image_bytes : Option Bytes)
    (folder : List String) (filename : String) (resize : Bool) :
    Except String (List String) :=
  if bytesTruthy image_bytes then
    match decodeSave (image_bytes.getD []) with
    | .error e => .error e
    | .ok _ => .ok (writeFile folder filename)
  else
    .ok folder

/-- Embedding of `get_next_image_number`: one more than the number of files in
the folder whose name ends with `.png`. -/
def get_next_image_number (folder : List String) : Nat :=
  (folder.filter (fun f => pyEndsWith f ".png")).length + 1

/-- The save loop of `generate_images_for_country_group` (lines 138-142): for
each gathered result in order, a truthy payload is named from the current
folder contents and saved; an exception from `save_image` is not caught and
aborts the loop. -/
def saveBatch (decodeSave : Bytes → Except String Unit) (country_group : String)
    (resize : Bool) : List (Option Bytes) → List String → Except String (List String)
  | [], folder => .ok folder
  | image_bytes :: rest, folder =>
    if bytesTruthy image_bytes then
      match save_image decodeSave image_bytes folder
          (imageFileName country_group (get_next_image_number folder)) resize with
      | .error e => .error e
      | .ok folder2 => saveBatch decodeSave country_group resize rest folder2
    else
      saveBatch decodeSave country_group resize rest folder

/-- `asyncio.gather`: results are collected in task order; if any task raised,
the gather raises instead of returning (which of several exceptions is
propagated is immaterial here; the first in list order is taken). -/
def gatherE {α : Type} : List (Except String α) → Except String (List α)
  | [] => .ok []
  | .error e :: _ => .error e
  | .ok a :: rest =>
    match gatherE rest with
    | .error e => .error e
    | .ok as => .ok (a :: as)

/-- The value returned by `generate_images_for_country_group`:
`len([img for img in image_bytes_list if img is not None])`. -/
def countGenerated (image_bytes_list : List (Option Bytes)) : Nat :=
  (image_bytes_list.filter (fun img => img.isSome)).length

/-- What one group batch did: the URLs posted, the directory it created, and
either the pair (success count, final folder contents) or the exception that
escaped. -/
structure GroupReturn where
  requests : List String
  folderName : String
  result : Except String (Nat × List String)
deriving DecidableEq

/-- Embedding of `generate_images_for_country_group`.  `env i` is the network
outcome of the request launched for attempt `i`; `promptOf i` is the composed
prompt for attempt `i` (the random sampling of prompt attributes is abstracted,
prompts never influence control flow); `initFolder` is the content of the group
folder when the batch starts. -/
def generate_images_for_country_group (env : Nat → HttpOutcome)
    (b64 : String → Except String Bytes) (decodeSave : Bytes → Except String Unit)
    (promptOf : Nat → String) (country_group : String) (n_per_country : Nat)
    (width height num_inference_steps : Int) (model : String) (resize : Bool)
    (initFolder : List String) : GroupReturn :=
  let folder_name := "generated_images/" ++ country_group
  let gens := (List.range n_per_country).map fun i =>
    generate_image (env i) b64 (promptOf i) width height num_inference_steps model
  let reqs := (gens.map fun g => g.requests).flatten
  match gatherE (gens.map fun g => g.result) with
  | .error e => ⟨reqs, folder_name, .error e⟩
  | .ok image_bytes_list =>
    match saveBatch decodeSave country_group resize image_bytes_list initFolder with
    | .error e => ⟨reqs, folder_name, .error e⟩
    | .ok folder2 => ⟨reqs, folder_name, .ok (countGenerated image_bytes_list, folder2)⟩

/-- The configuration document.  Only the `countries` mapping (group name to
location pool) influences control flow; the other attribute pools and the
prompt template only shape prompt text, which is abstracted by `promptOf`. -/
structure Config where
  countries : List (String × List String)
deriving DecidableEq

/-- Embedding of `calculate_total_images`. -/
def calculate_total_images (config : Config) (n_per_country : Int) : Int :=
  (config.countries.length : Int) * n_per_country

/-- Embedding of `calculate_cost`; Python floats are modelled by `ℚ`. -/
def calculate_cost (width height num_inference_steps : ℚ) : ℚ :=
  0.0005 * (width / 1024) * (height / 1024) * num_inference_steps

/-- Python `str.lower`, over code points (the confirmation strings are ASCII). -/
def pyLower (s : String) : String :=
  ⟨s.data.map Char.toLower⟩

/-- Python `str.strip` with no argument: remove leading and trailing whitespace. -/
def pyStrip (s : String) : String :=
  ⟨((s.data.dropWhile Char.isWhitespace).reverse.dropWhile Char.isWhitespace).reverse⟩

/-- Embedding of `ask_user_confirmation`, over the finite list of lines the
user will type; `none` means stdin was exhausted (an `EOFError` escapes). -/
def ask_user_confirmation : List String → Option Bool
  | [] => none
  | response :: rest =>
    let r := pyStrip (pyLower response)
    if r = "yes" ∨ r = "y" then some true
    else if r = "no" ∨ r = "n" then some false
    else ask_user_confirmation rest

/-- Final state of a run: cancelled at the gate, aborted by an uncaught
exception, or completed with a generated-image count, the reported actual
cost, and each group folder final contents. -/
inductive RunResult where
  | cancelled
  | crashed (err : String)
  | completed (generated : Nat) (actual_cost : ℚ) (folders : List (String × List String))
deriving DecidableEq

/-- True exactly when the run reached its final summary. -/
def RunResult.isCompleted : RunResult → Bool
  | .completed _ _ _ => true
  | _ => false

/-- True exactly when the run was cancelled at the confirmation gate. -/
def RunResult.isCancelled : RunResult → Bool
  | .cancelled => true
  | _ => false

/-- The reported number of generated images, when the run completed. -/
def RunResult.generatedCount : RunResult → Option Nat
  | .completed g _ _ => some g
  | _ => none

/-- The reported actual cost, when the run completed. -/
def RunResult.actualCost : RunResult → Option ℚ
  | .completed _ c _ => some c
  | _ => none

/-- The final contents of each group folder, when the run completed. -/
def RunResult.folderState : RunResult → Option (List (String × List String))
  | .completed _ _ fs => some fs
  | _ => none

/-- The error message of the exception that ended the run, if one did. -/
def RunResult.crashErr : RunResult → Option String
  | .crashed e => some e
  | _ => none

/-- Observable effects and results of one whole run of `main`. -/
structure RunReturn where
  requests : List String
  dirsMade : List String
  totalImages : Int
  totalCost : ℚ
  outcome : RunResult
  exitCode : Nat
deriving DecidableEq

/-- The per-group fan-out of `main`: one `generate_images_for_country_group`
task per key of `config.countries`, in insertion order. -/
def run_groups (env : String → Nat → HttpOutcome)
    (b64 : String → Except String Bytes) (decodeSave : Bytes → Except String Unit)
    (promptOf : String → Nat → String) (config : Config)
    (n_per_country width height num_inference_steps : Int) (model : String)
    (resize : Bool) (initFolder : String → List String) : List GroupReturn :=
  config.countries.map fun gc =>
    generate_images_for_country_group (env gc.1) b64 decodeSave (promptOf gc.1) gc.1
      n_per_country.toNat width height num_inference_steps model resize (initFolder gc.1)

/-- Embedding of `main` after argument parsing and config loading: compute the
estimate, gate on confirmation, fan out over groups, aggregate.  `inputs` is
the stdin script for the confirmation prompt.  Exit code 0 is normal
termination or `sys.exit(0)`; exit code 1 is an uncaught exception. -/
def main_run (inputs : List String) (config : Config)
    (n_per_country width height num_inference_steps : Int) (model : String)
    (resize : Bool) (env : String → Nat → HttpOutcome)
    (b64 : String → Except String Bytes) (decodeSave : Bytes → Except String Unit)
    (promptOf : String → Nat → String) (initFolder : String → List String) :
    RunReturn :=
  let total_images := calculate_total_images config n_per_country
  let total_cost := (total_images : ℚ) *
    calculate_cost (width : ℚ) (height : ℚ) (num_inference_steps : ℚ)
  match ask_user_confirmation inputs with
  | none => ⟨[], [], total_images, total_cost, .crashed "EOFError", 1⟩
  | some false => ⟨[], [], total_images, total_cost, .cancelled, 0⟩
  | some true =>
    let runs := run_groups env b64 decodeSave promptOf config n_per_country
      width height num_inference_steps model resize initFolder
    let reqs := (runs.map fun r => r.requests).flatten
    let dirs := runs.map fun r => r.folderName
    match gatherE (runs.map fun r => r.result) with
    | .error e => ⟨reqs, dirs, total_images, total_cost, .crashed e, 1⟩
    | .ok results =>
      let generated : Nat := (results.map fun r => r.1).sum
      let actual_cost := (generated : ℚ) *
        calculate_cost (width : ℚ) (height : ℚ) (num_inference_steps : ℚ)
      ⟨reqs, dirs, total_images, total_cost,
        .completed generated actual_cost
          ((config.countries.map fun gc => gc.1).zip (results.map fun r => r.2)), 0⟩

/-- A one-group configuration used for concrete runs. -/
def cfg1 : Config := ⟨[("g", ["X"])]⟩

/-- A network that answers every request with status 200 and one data URI. -/
def env200 : String → Nat → HttpOutcome := fun _ _ => .response 200 ["data,AA"]

/-- A network that answers every request with status 500. -/
def env500 : String → Nat → HttpOutcome := fun _ _ => .response 500 []

/-- A base64 decoder that decodes every payload to the byte [1]. -/
def b64stub : String → Except String Bytes := fun _ => .ok [1]

/-- A PIL layer that always succeeds. -/
def decodeOk : Bytes → Except String Unit := fun _ => .ok ()

/-- A PIL layer that raises on the payload [1] and succeeds otherwise. -/
def decodeBad : Bytes → Except String Unit :=
  fun bs => if bs = [1] then .error "UnidentifiedImageError" else .ok ()

/-- A trivial prompt composer. -/
def promptStub : String → Nat → String := fun _ _ => "prompt"

/-- Every group folder starts empty. -/
def emptyFs : String → List String := fun _ => []

/-- The canonical contents of a group folder holding files number 1 through m. -/
def canonNames (country_group : String) (m : Nat) : List String :=
  (List.range m).map fun j => imageFileName country_group (j + 1)

/-- The spec wording of the Output Namer count, for comparison with the code:
a file matches the naming pattern of a group when its name is the group name,
then a non-empty decimal index, then the `.png` extension. -/
def matchesGroupPattern (country_group f : String) : Bool :=
  let gd := country_group.data
  let rest := f.data.drop gd.length
  let mid := rest.take (rest.length - 4)
  (f.data.take gd.length == gd) && (rest.drop (rest.length - 4) == ".png".data)
    && decide (5 ≤ rest.length) && mid.all Char.isDigit

lemma toDigitsCore_shift (fuel : Nat) : ∀ (n : Nat) (ds : List Char),
    Nat.toDigitsCore 10 fuel n ds = Nat.toDigitsCore 10 fuel n [] ++ ds := by
  induction fuel with
  | zero => intro n ds; simp [Nat.toDigitsCore]
  | succ fuel ih =>
    intro n ds
    simp only [Nat.toDigitsCore]
    by_cases h : n / 10 = 0
    · simp [h]
    · simp only [h, if_false]
      rw [ih (n / 10) (Nat.digitChar (n % 10) :: ds), ih (n / 10) [Nat.digitChar (n % 10)],
        List.append_assoc, List.singleton_append]

lemma toDigitsCore_fuel (n : Nat) : ∀ (f₁ f₂ : Nat) (ds : List Char), n < f₁ → n < f₂ →
    Nat.toDigitsCore 10 f₁ n ds = Nat.toDigitsCore 10 f₂ n ds := by
  induction n using Nat.strong_induction_on with
  | _ n ih =>
    intro f₁ f₂ ds h₁ h₂
    match f₁, f₂ with
    | g₁ + 1, g₂ + 1 =>
      simp only [Nat.toDigitsCore]
      by_cases h : n / 10 = 0
      · simp [h]
      · simp only [h, if_false]
        have hpos : 0 < n := Nat.pos_of_ne_zero fun hz => h (by simp [hz])
        have hlt : n / 10 < n := Nat.div_lt_self hpos (by norm_num)
        exact ih (n / 10) hlt g₁ g₂ _
          (lt_of_lt_of_le hlt (Nat.lt_succ_iff.mp h₁))
          (lt_of_lt_of_le hlt (Nat.lt_succ_iff.mp h₂))

lemma toDigits_eq_digits (n : Nat) (hn : 0 < n) :
    Nat.toDigits 10 n = ((Nat.digits 10 n).map Nat.digitChar).reverse := by
  induction n using Nat.strong_induction_on with
  | _ n ih =>
    have hd : Nat.digits 10 n = n % 10 :: Nat.digits 10 (n / 10) :=
      Nat.digits_def' (by norm_num) hn
    simp only [Nat.toDigits, Nat.toDigitsCore]
    by_cases h : n / 10 = 0
    · simp [h, hd]
    · simp only [h, if_false]
      have hpos : 0 < n / 10 := Nat.pos_of_ne_zero h
      have hlt : n / 10 < n := Nat.div_lt_self hn (by norm_num)
      rw [toDigitsCore_shift, toDigitsCore_fuel (n / 10) n (n / 10 + 1) []
          (lt_of_lt_of_le hlt (le_refl n)) (Nat.lt_succ_self _)]
      rw [show Nat.toDigitsCore 10 (n / 10 + 1) (n / 10) [] = Nat.toDigits 10 (n / 10) from rfl]
      rw [ih (n / 10) hlt hpos, hd]
      simp [List.reverse_cons]

lemma digitChar_inj_lt : ∀ a, a < 10 → ∀ b, b < 10 →
    Nat.digitChar a = Nat.digitChar b → a = b := by decide

lemma map_digitChar_inj : ∀ (l₁ l₂ : List Nat), (∀ x ∈ l₁, x < 10) → (∀ x ∈ l₂, x < 10) →
    l₁.map Nat.digitChar = l₂.map Nat.digitChar → l₁ = l₂ := by
  intro l₁
  induction l₁ with
  | nil => intro l₂ _ _ h; cases l₂ with
    | nil => rfl
    | cons b bs => simp at h
  | cons a as ih =>
    intro l₂ h₁ h₂ h
    cases l₂ with
    | nil => simp at h
    | cons b bs =>
      simp only [List.map_cons, List.cons.injEq] at h
      have ha : a = b := digitChar_inj_lt a (h₁ a (by simp)) b (h₂ b (by simp)) h.1
      have hs : as = bs := ih bs (fun x hx => h₁ x (by simp [hx]))
        (fun x hx => h₂ x (by simp [hx])) h.2
      rw [ha, hs]

lemma repr_inj_pos {m n : Nat} (hm : 0 < m) (hn : 0 < n)
    (h : Nat.repr m = Nat.repr n) : m = n := by
  have hds : Nat.toDigits 10 m = Nat.toDigits 10 n := by
    have := congrArg String.data h
    simpa [Nat.repr, List.asString] using this
  rw [toDigits_eq_digits m hm, toDigits_eq_digits n hn, List.reverse_inj] at hds
  have hdig : Nat.digits 10 m = Nat.digits 10 n :=
    map_digitChar_inj _ _ (fun x hx => Nat.digits_lt_base (by norm_num) hx)
      (fun x hx => Nat.digits_lt_base (by norm_num) hx) hds
  have := congrArg (Nat.ofDigits 10) hdig
  simpa [Nat.ofDigits_digits] using this

lemma imageFileName_inj {g : String} {k₁ k₂ : Nat} (h₁ : 0 < k₁) (h₂ : 0 < k₂)
    (h : imageFileName g k₁ = imageFileName g k₂) : k₁ = k₂ := by
  have hd := congrArg String.data h
  simp only [imageFileName, String.data_append] at hd
  have hr : (Nat.repr k₁).data = (Nat.repr k₂).data :=
    List.append_cancel_left (List.append_cancel_right hd)
  exact repr_inj_pos h₁ h₂ (String.ext hr)

lemma pyEndsWith_append (s t : String) : pyEndsWith (s ++ t) t = true := by
  simp only [pyEndsWith, String.data_append, List.isSuffixOf_iff_suffix]
  exact List.suffix_append _ _

lemma imageFileName_endsWith (g : String) (k : Nat) :
    pyEndsWith (imageFileName g k) ".png" = true :=
  pyEndsWith_append (g ++ Nat.repr k) ".png"

lemma canonNames_succ (g : String) (m : Nat) :
    canonNames g (m + 1) = canonNames g m ++ [imageFileName g (m + 1)] := by
  simp [canonNames, List.range_succ]

lemma get_next_canon (g : String) (m : Nat) :
    get_next_image_number (canonNames g m) = m + 1 := by
  unfold get_next_image_number
  rw [List.filter_eq_self.mpr]
  · simp [canonNames]
  · intro a ha
    obtain ⟨j, _, he⟩ := List.mem_map.mp ha
    rw [← he]
    exact imageFileName_endsWith g (j + 1)

lemma imageFileName_notMem_canon (g : String) (m : Nat) :
    imageFileName g (m + 1) ∉ canonNames g m := by
  intro hmem
  obtain ⟨j, hj, he⟩ := List.mem_map.mp hmem
  have hjm := List.mem_range.mp hj
  have := imageFileName_inj (Nat.succ_pos j) (Nat.succ_pos m) he
  omega

lemma canonNames_nodup (g : String) (m : Nat) : (canonNames g m).Nodup := by
  refine List.Nodup.map ?_ (List.nodup_range m)
  intro a b hab
  have := imageFileName_inj (Nat.succ_pos a) (Nat.succ_pos b) hab
  omega

lemma saveBatch_canon (d : Bytes → Except String Unit) (g : String) (rz : Bool) :
    ∀ (results : List (Option Bytes)) (m : Nat) (folderF : List String),
    saveBatch d g rz results (canonNames g m) = .ok folderF →
    folderF = canonNames g (m + (results.filter bytesTruthy).length) := by
  intro results
  induction results with
  | nil =>
    intro m fF h
    simp only [saveBatch, Except.ok.injEq] at h
    simp [← h]
  | cons r rest ih =>
    intro m fF h
    by_cases ht : bytesTruthy r
    · simp only [saveBatch, ht, if_true, get_next_canon, save_image] at h
      cases hd : d (r.getD []) with
      | error e => rw [hd] at h; simp at h
      | ok u =>
        rw [hd] at h
        simp only [writeFile] at h
        rw [if_neg (imageFileName_notMem_canon g m), ← canonNames_succ] at h
        have hF := ih (m + 1) fF h
        have hL : m + (List.filter bytesTruthy (r :: rest)).length
            = m + 1 + (List.filter bytesTruthy rest).length := by
          simp [List.filter_cons, ht]; omega
        rw [hF, hL]
    · simp only [saveBatch, ht, if_false] at h
      have hF := ih m fF h
      have hL : m + (List.filter bytesTruthy (r :: rest)).length
          = m + (List.filter bytesTruthy rest).length := by
        simp [List.filter_cons, ht]
      rw [hF, hL]

lemma gatherE_ok_length {α : Type} : ∀ {l : List (Except String α)} {as : List α},
    gatherE l = .ok as → as.length = l.length := by
  intro l
  induction l with
  | nil => intro as h; simp only [gatherE, Except.ok.injEq] at h; simp [← h]
  | cons e rest ih =>
    intro as h
    cases e with
    | error s => simp [gatherE] at h
    | ok a =>
      simp only [gatherE] at h
      cases hr : gatherE rest with
      | error s => rw [hr] at h; simp at h
      | ok bs =>
        rw [hr] at h
        simp only [Except.ok.injEq] at h
        rw [← h]
        simp [ih hr]

lemma gatherE_ok_mem {α : Type} : ∀ {l : List (Except String α)} {as : List α},
    gatherE l = .ok as → ∀ a ∈ as, Except.ok a ∈ l := by
  intro l
  induction l with
  | nil =>
    intro as h a ha
    simp only [gatherE, Except.ok.injEq] at h
    rw [← h] at ha
    simp at ha
  | cons e rest ih =>
    intro as h a ha
    cases e with
    | error s => simp [gatherE] at h
    | ok b =>
      simp only [gatherE] at h
      cases hr : gatherE rest with
      | error s => rw [hr] at h; simp at h
      | ok bs =>
        rw [hr] at h
        simp only [Except.ok.injEq] at h
        rw [← h] at ha
        rcases List.mem_cons.mp ha with hab | hmem
        · simp [hab]
        · exact List.mem_cons_of_mem _ (ih hr a hmem)

lemma gatherE_map_ok {α β : Type} (f : β → α) : ∀ (l : List β),
    gatherE (l.map fun x => .ok (f x)) = .ok (l.map f) := by
  intro l
  induction l with
  | nil => rfl
  | cons b bs ih => simp [gatherE, ih]

lemma group_count_le {env : Nat → HttpOutcome} {b64 : String → Except String Bytes}
    {d : Bytes → Except String Unit} {pf : Nat → String} {g : String} {n : Nat}
    {w hh s : Int} {model : String} {rz : Bool} {initF : List String}
    {c : Nat} {fs : List String}
    (hr : (generate_images_for_country_group env b64 d pf g n w hh s model rz initF).result
      = .ok (c, fs)) : c ≤ n := by
  simp only [generate_images_for_country_group] at hr
  split at hr
  · simp at hr
  · rename_i il heq
    split at hr
    · simp at hr
    · simp only [Except.ok.injEq, Prod.mk.injEq] at hr
      have hlen : il.length = n := by
        have := gatherE_ok_length heq
        simpa using this
      have hcount : countGenerated il ≤ il.length := List.length_filter_le _ _
      omega

lemma calculate_cost_nonneg {w hh s : ℚ} (hw : 0 ≤ w) (hh2 : 0 ≤ hh) (hs : 0 ≤ s) :
    0 ≤ calculate_cost w hh s := by
  unfold calculate_cost
  have h5 : (0 : ℚ) ≤ 0.0005 := by norm_num
  exact mul_nonneg (mul_nonneg (mul_nonneg h5 (div_nonneg hw (by norm_num)))
    (div_nonneg hh2 (by norm_num))) hs

lemma main_run_totalCost (inputs : List String) (config : Config)
    (n w hh s : Int) (model : String) (rz : Bool) (env : String → Nat → HttpOutcome)
    (b64 : String → Except String Bytes) (d : Bytes → Except String Unit)
    (pf : String → Nat → String) (initF : String → List String) :
    (main_run inputs config n w hh s model rz env b64 d pf initF).totalCost
      = ((calculate_total_images config n : Int) : ℚ)
          * calculate_cost (w : ℚ) (hh : ℚ) (s : ℚ) := by
  simp only [main_run]
  split
  · rfl
  · rfl
  · split
    · rfl
    · rfl

lemma main_run_totalImages (inputs : List String) (config : Config)
    (n w hh s : Int) (model : String) (rz : Bool) (env : String → Nat → HttpOutcome)
    (b64 : String → Except String Bytes) (d : Bytes → Except String Unit)
    (pf : String → Nat → String) (initF : String → List String) :
    (main_run inputs config n w hh s model rz env b64 d pf initF).totalImages
      = calculate_total_images config n := by
  simp only [main_run]
  split
  · rfl
  · rfl
  · split
    · rfl
    · rfl

lemma main_run_completed {inputs : List String} {config : Config}
    {n w hh s : Int} {model : String} {rz : Bool} {env : String → Nat → HttpOutcome}
    {b64 : String → Except String Bytes} {d : Bytes → Except String Unit}
    {pf : String → Nat → String} {initF : String → List String}
    {gen : Nat} {ac : ℚ} {fold : List (String × List String)}
    (hc : (main_run inputs config n w hh s model rz env b64 d pf initF).outcome
      = .completed gen ac fold) :
    ask_user_confirmation inputs = some true ∧
    ∃ results,
      gatherE ((run_groups env b64 d pf config n w hh s model rz initF).map fun r => r.result)
        = .ok results ∧
      gen = (results.map fun r => r.1).sum ∧
      ac = (gen : ℚ) * calculate_cost (w : ℚ) (hh : ℚ) (s : ℚ) ∧
      fold = (config.countries.map fun gc => gc.1).zip (results.map fun r => r.2) := by
  simp only [main_run] at hc
  split at hc
  · simp at hc
  · simp at hc
  · rename_i hask
    split at hc
    · simp at hc
    · rename_i results heq
      simp only [RunResult.completed.injEq] at hc
      exact ⟨hask, results, heq, hc.1.symm, by rw [← hc.2.1, ← hc.1], hc.2.2.symm⟩

lemma matches_imp_endsWith (g f : String) (h : matchesGroupPattern g f = true) :
    pyEndsWith f ".png" = true := by
  simp only [matchesGroupPattern, Bool.and_eq_true, beq_iff_eq, decide_eq_true_eq] at h
  obtain ⟨⟨⟨_, hdropEq⟩, _⟩, _⟩ := h
  simp only [pyEndsWith, List.isSuffixOf_iff_suffix]
  have h1 : (f.data.drop g.data.length).drop
        ((f.data.drop g.data.length).length - 4) <:+ f.data :=
    (List.drop_suffix _ _).trans (List.drop_suffix _ _)
  rw [hdropEq] at h1
  exact h1

lemma saveBatch_all_falsy (d : Bytes → Except String Unit) (g : String) (rz : Bool) :
    ∀ (results : List (Option Bytes)) (fs : List String),
    (∀ r ∈ results, bytesTruthy r = false) → saveBatch d g rz results fs = .ok fs := by
  intro results
  induction results with
  | nil => intro fs _; rfl
  | cons r rest ih =>
    intro fs hall
    have hr : bytesTruthy r = false := hall r (by simp)
    simp only [saveBatch, hr, Bool.false_eq_true, if_false]
    exact ih fs fun x hx => hall x (by simp [hx])

lemma countGenerated_map_none {β : Type} (l : List β) :
    countGenerated (l.map fun _ => none) = 0 := by
  induction l with
  | nil => rfl
  | cons b bs ih => simp [countGenerated, List.filter_cons] at ih ⊢

lemma sum_map_zero {β : Type} (l : List β) : (l.map fun _ => (0 : Nat)).sum = 0 := by
  induction l with
  | nil => rfl
  | cons b bs ih => simp [ih]

lemma generate_image_invalid {model : String} (h1 : model ≠ "schnell")
    (h2 : model ≠ "dev") (o : HttpOutcome) (b64 : String → Except String Bytes)
    (p : String) (w hh s : Int) :
    generate_image o b64 p w hh s model = ⟨[], .ok none⟩ := by
  simp [generate_image, h1, h2]

lemma group_invalid {model : String} (h1 : model ≠ "schnell") (h2 : model ≠ "dev")
    (env : Nat → HttpOutcome) (b64 : String → Except String Bytes)
    (d : Bytes → Except String Unit) (pf : Nat → String) (g : String) (n : Nat)
    (w hh s : Int) (rz : Bool) (initF : List String) :
    generate_images_for_country_group env b64 d pf g n w hh s model rz initF
      = ⟨[], "generated_images/" ++ g, .ok (0, initF)⟩ := by
  simp only [generate_images_for_country_group]
  have hmap : ((List.range n).map fun i => generate_image (env i) b64 (pf i) w hh s model)
      = (List.range n).map fun _ => (⟨[], .ok none⟩ : GenReturn) :=
    List.map_congr_left fun i _ => generate_image_invalid h1 h2 (env i) b64 (pf i) w hh s
  rw [hmap, List.map_map, List.map_map]
  rw [show gatherE ((List.range n).map
        ((fun g2 => g2.result) ∘ fun _ => (⟨[], .ok none⟩ : GenReturn)))
      = .ok ((List.range n).map fun _ => (none : Option Bytes)) from
    gatherE_map_ok (fun _ => none) (List.range n)]
  dsimp only
  rw [saveBatch_all_falsy d g rz _ initF
    (by intro x hx; obtain ⟨j, _, hj⟩ := List.mem_map.mp hx; simp [← hj, bytesTruthy])]
  dsimp only
  rw [countGenerated_map_none]
  simp

/-- C10: for every folder, filename and resize flag, save_image invoked with an
empty byte payload performs no filesystem write and returns the unchanged
folder, exactly as when invoked with the absence marker None: at the
persistence layer the two are indistinguishable. -/
theorem c10_empty_payload (d : Bytes → Except String Unit) (folder : List String)
    (filename : String) (resize : Bool) :
    save_image d (some []) folder filename resize = .ok folder ∧
    save_image d none folder filename resize = .ok folder ∧
    save_image d (some []) folder filename resize
      = save_image d none folder filename resize := by
  simp [save_image, bytesTruthy]

/-- C7: the unit cost is the pure function K * (width/1024) * (height/1024) * steps
with K = 0.0005 = 1/2000, it is linear in each of the three parameters
independently, and the planned cost of a run is the planned image count times
the unit cost. -/
theorem c7_unit_cost :
    (∀ w h s : ℚ, calculate_cost w h s = (1 / 2000) * (w / 1024) * (h / 1024) * s) ∧
    (∀ a w₁ w₂ h s : ℚ, calculate_cost (a * w₁ + w₂) h s
        = a * calculate_cost w₁ h s + calculate_cost w₂ h s) ∧
    (∀ a w h₁ h₂ s : ℚ, calculate_cost w (a * h₁ + h₂) s
        = a * calculate_cost w h₁ s + calculate_cost w h₂ s) ∧
    (∀ a w h s₁ s₂ : ℚ, calculate_cost w h (a * s₁ + s₂)
        = a * calculate_cost w h s₁ + calculate_cost w h s₂) ∧
    (∀ (inputs : List String) (config : Config) (n width height steps : Int)
        (model : String) (rz : Bool) (env : String → Nat → HttpOutcome)
        (b64 : String → Except String Bytes) (d : Bytes → Except String Unit)
        (pf : String → Nat → String) (initF : String → List String),
      (main_run inputs config n width height steps model rz env b64 d pf initF).totalCost
        = ((calculate_total_images config n : Int) : ℚ)
            * calculate_cost (width : ℚ) (height : ℚ) (steps : ℚ)) := by
  have hK : (0.0005 : ℚ) = 1 / 2000 := by norm_num
  refine ⟨?_, ?_, ?_, ?_, ?_⟩
  · intro w h s; rw [calculate_cost, hK]
  · intro a w₁ w₂ h s; simp only [calculate_cost]; ring
  · intro a w h₁ h₂ s; simp only [calculate_cost]; ring
  · intro a w h s₁ s₂; simp only [calculate_cost]; ring
  · intro inputs config n width height steps model rz env b64 d pf initF
    exact main_run_totalCost inputs config n width height steps model rz env b64 d pf initF

/-- C9: for every configuration with a non-empty group set and every
n_per_country, the planned image count computed before the confirmation gate
is exactly the number of groups times n_per_country. -/
theorem c9_planned_count (inputs : List String) (config : Config)
    (n width height steps : Int) (model : String) (rz : Bool)
    (env : String → Nat → HttpOutcome) (b64 : String → Except String Bytes)
    (d : Bytes → Except String Unit) (pf : String → Nat → String)
    (initF : String → List String) (hne : config.countries ≠ []) :
    (main_run inputs config n width height steps model rz env b64 d pf initF).totalImages
      = (config.countries.length : Int) * n ∧
    calculate_total_images config n = (config.countries.length : Int) * n := by
  refine ⟨?_, rfl⟩
  rw [main_run_totalImages]
  rfl

/-- Witness for C9 at a concrete one-group run with n_per_country = 3. -/
theorem c9_planned_count_witness :
    cfg1.countries ≠ [] ∧
    ((main_run ["yes"] cfg1 3 512 512 1 "schnell" false env200 b64stub decodeOk
        promptStub emptyFs).totalImages = (cfg1.countries.length : Int) * 3 ∧
     calculate_total_images cfg1 3 = (cfg1.countries.length : Int) * 3) :=
  ⟨by decide, c9_planned_count ["yes"] cfg1 3 512 512 1 "schnell" false env200
    b64stub decodeOk promptStub emptyFs (by decide)⟩

/-- C5: if the save loop of a batch runs to completion starting from an empty
group directory, the files present afterwards are exactly group1.png through
groupK.png where K is the number of results it saved, with no gaps and no
duplicate indices, regardless of the order in which the gathered results
arrived. -/
theorem c5_output_names (d : Bytes → Except String Unit) (g : String) (rz : Bool)
    (results : List (Option Bytes)) (folderF : List String)
    (hok : saveBatch d g rz results [] = .ok folderF) :
    folderF = canonNames g ((results.filter bytesTruthy).length) ∧ folderF.Nodup := by
  have h0 : canonNames g 0 = [] := rfl
  have hF := saveBatch_canon d g rz results 0 folderF (by rw [h0]; exact hok)
  refine ⟨by simpa using hF, ?_⟩
  rw [hF]
  exact canonNames_nodup g _

/-- Witness for C5: a batch of three results, two of them saved. -/
theorem c5_output_names_witness :
    saveBatch decodeOk "g" false [some [1], none, some [2]] [] = .ok ["g1.png", "g2.png"] ∧
    ((["g1.png", "g2.png"] : List String)
        = canonNames "g" ((([some [1], none, some [2]] : List (Option Bytes)).filter
            bytesTruthy).length) ∧
      (["g1.png", "g2.png"] : List String).Nodup) :=
  ⟨by decide, c5_output_names decodeOk "g" false [some [1], none, some [2]]
    ["g1.png", "g2.png"] (by decide)⟩

/-- C2 is false as stated: with the valid model schnell, a transport failure
makes generate_image raise (the exception propagates) instead of returning the
absence marker None. -/
theorem c2_counterexample :
    (generate_image (.transportError "ClientConnectorError") b64stub "prompt"
        512 512 1 "schnell").result = .error "ClientConnectorError" ∧
    (generate_image (.transportError "ClientConnectorError") b64stub "prompt"
        512 512 1 "schnell").result ≠ .ok none := by
  exact ⟨rfl, by decide⟩

/-- C2 amended: for a valid model, any non-success HTTP status yields the
absence marker None as an ordinary return value without raising; a transport
failure, however, propagates as an exception rather than yielding None. -/
theorem c2_client_failures (status : Nat) (images : List String) (e : String)
    (b64 : String → Except String Bytes) (prompt : String) (w hh s : Int)
    (model : String) (hm : model = "schnell" ∨ model = "dev") (hs : status ≠ 200) :
    (generate_image (.response status images) b64 prompt w hh s model).result = .ok none ∧
    (generate_image (.transportError e) b64 prompt w hh s model).result = .error e := by
  rcases hm with h | h <;> subst h <;> simp [generate_image, genPost, hs]

/-- Witness for C2 at status 500 on the schnell endpoint. -/
theorem c2_client_failures_witness :
    ((("schnell" : String) = "schnell" ∨ ("schnell" : String) = "dev") ∧ (500 : Nat) ≠ 200) ∧
    ((generate_image (.response 500 []) b64stub "prompt" 512 512 1 "schnell").result
        = .ok none ∧
     (generate_image (.transportError "ConnectionReset") b64stub "prompt" 512 512 1
        "schnell").result = .error "ConnectionReset") :=
  ⟨⟨Or.inl rfl, by decide⟩, c2_client_failures 500 [] "ConnectionReset" b64stub
    "prompt" 512 512 1 "schnell" (Or.inl rfl) (by decide)⟩

/-- C3 is false as stated: a decode error on the first image of a batch makes
the whole save loop raise, so the remaining image of the batch is never saved,
and at run level the exception aborts the run with exit code 1. -/
theorem c3_counterexample :
    saveBatch decodeBad "g" false [some [1], some [2]] []
      = .error "UnidentifiedImageError" ∧
    (main_run ["yes"] cfg1 1 512 512 1 "schnell" false env200 b64stub decodeBad
      promptStub emptyFs).outcome.crashErr = some "UnidentifiedImageError" ∧
    (main_run ["yes"] cfg1 1 512 512 1 "schnell" false env200 b64stub decodeBad
      promptStub emptyFs).exitCode = 1 := by
  exact ⟨by decide, by decide, by decide⟩

/-- C3 amended: a decode or filesystem-save error for one image is not caught:
the save loop stops at the first erroring image, the error propagates, and the
images after it in the batch are not saved. -/
theorem c3_save_error_aborts (d : Bytes → Except String Unit) (g : String)
    (rz : Bool) (res₁ res₂ : List (Option Bytes)) (bad : Option Bytes)
    (fs fs₁ : List String) (e : String)
    (h₁ : saveBatch d g rz res₁ fs = .ok fs₁)
    (ht : bytesTruthy bad = true) (hd : d (bad.getD []) = .error e) :
    saveBatch d g rz (res₁ ++ bad :: res₂) fs = .error e := by
  induction res₁ generalizing fs with
  | nil =>
    simp only [List.nil_append, saveBatch, ht, if_true, save_image, hd]
  | cons r rest ih =>
    by_cases hr : bytesTruthy r
    · simp only [saveBatch, hr, if_true, save_image, List.cons_append] at h₁ ⊢
      cases hdr : d (r.getD []) with
      | error e2 => rw [hdr] at h₁; simp at h₁
      | ok u =>
        rw [hdr] at h₁
        dsimp only at h₁ ⊢
        exact ih _ h₁
    · simp only [saveBatch, hr, Bool.false_eq_true, if_false, List.cons_append] at h₁ ⊢
      exact ih _ h₁

/-- Witness for C3 amended: one good save, then a bad payload, then another
result that is never reached. -/
theorem c3_save_error_aborts_witness :
    (saveBatch decodeBad "g" false [some [2]] [] = .ok ["g1.png"] ∧
     bytesTruthy (some [1]) = true ∧
     decodeBad ((some [1] : Option Bytes).getD []) = .error "UnidentifiedImageError") ∧
    saveBatch decodeBad "g" false ([some [2]] ++ some [1] :: [some [3]]) []
      = .error "UnidentifiedImageError" :=
  ⟨⟨by decide, by decide, by decide⟩,
    c3_save_error_aborts decodeBad "g" false [some [2]] [some [3]] (some [1]) []
      ["g1.png"] "UnidentifiedImageError" (by decide) (by decide) (by decide)⟩

/-- C6 is false as stated: the code counts every .png file in the directory,
not only those matching the group naming pattern, so with one stray .png file
present the computed next index is 2 while the spec formula gives 1. -/
theorem c6_counterexample :
    get_next_image_number ["stray.png"] = 2 ∧
    ((["stray.png"] : List String).filter fun f =>
        matchesGroupPattern "groupA" f).length + 1 = 1 ∧
    get_next_image_number ["stray.png"]
      ≠ ((["stray.png"] : List String).filter fun f =>
          matchesGroupPattern "groupA" f).length + 1 := by
  exact ⟨by decide, by decide, by decide⟩

/-- C6 amended: the next index is (count of .png files) + 1, which agrees with
the spec formula (count of files matching the group naming pattern) + 1
whenever every .png file in the directory matches the pattern; in particular,
with groupA1.png and groupA2.png pre-existing, the next saved image becomes
groupA3.png and neither existing file is overwritten. -/
theorem c6_next_index (g : String) (files : List String)
    (hyp : ∀ f ∈ files, pyEndsWith f ".png" = true → matchesGroupPattern g f = true) :
    get_next_image_number files
      = (files.filter fun f => matchesGroupPattern g f).length + 1 ∧
    saveBatch decodeOk "groupA" false [some [7]] ["groupA1.png", "groupA2.png"]
      = .ok ["groupA1.png", "groupA2.png", "groupA3.png"] := by
  constructor
  · unfold get_next_image_number
    have hfe : files.filter (fun f => pyEndsWith f ".png")
        = files.filter fun f => matchesGroupPattern g f := by
      apply List.filter_congr
      intro f hf
      cases hb : pyEndsWith f ".png" with
      | true => exact (hyp f hf hb).symm
      | false =>
        cases hm : matchesGroupPattern g f with
        | true => rw [← hb, matches_imp_endsWith g f hm]
        | false => rfl
    rw [hfe]
  · decide

/-- Witness for C6 amended at the directory holding groupA1.png and groupA2.png. -/
theorem c6_next_index_witness :
    (∀ f ∈ (["groupA1.png", "groupA2.png"] : List String),
        pyEndsWith f ".png" = true → matchesGroupPattern "groupA" f = true) ∧
    (get_next_image_number ["groupA1.png", "groupA2.png"]
        = ((["groupA1.png", "groupA2.png"] : List String).filter fun f =>
            matchesGroupPattern "groupA" f).length + 1 ∧
     saveBatch decodeOk "groupA" false [some [7]] ["groupA1.png", "groupA2.png"]
        = .ok ["groupA1.png", "groupA2.png", "groupA3.png"]) :=
  ⟨by decide, c6_next_index "groupA" ["groupA1.png", "groupA2.png"] (by decide)⟩

/-- C8 is false as stated: the declined run exits through sys.exit(0), the same
exit status 0 as a run that completes normally, so the exit signal is not
distinct from normal completion. -/
theorem c8_counterexample :
    (main_run ["no"] cfg1 1 512 512 1 "schnell" false env200 b64stub decodeOk
      promptStub emptyFs).outcome.isCancelled = true ∧
    (main_run ["no"] cfg1 1 512 512 1 "schnell" false env200 b64stub decodeOk
      promptStub emptyFs).exitCode = 0 ∧
    (main_run ["yes"] cfg1 1 512 512 1 "schnell" false env200 b64stub decodeOk
      promptStub emptyFs).outcome.isCompleted = true ∧
    (main_run ["yes"] cfg1 1 512 512 1 "schnell" false env200 b64stub decodeOk
      promptStub emptyFs).exitCode = 0 := by
  exact ⟨by decide, by decide, by decide, by decide⟩

/-- C8 amended: the gate returns only on an unambiguous yes/y or no/n answer
(after lowercasing and stripping) and reprompts on anything else; a negative
answer terminates the run with zero network requests, zero directories and
files, and exit status 0 — the same exit status as normal completion, the
cancellation being signalled only by the printed message. -/
theorem c8_confirmation_gate :
    (∀ (response : String) (rest : List String),
        (pyStrip (pyLower response) = "yes" ∨ pyStrip (pyLower response) = "y") →
        ask_user_confirmation (response :: rest) = some true) ∧
    (∀ (response : String) (rest : List String),
        (pyStrip (pyLower response) = "no" ∨ pyStrip (pyLower response) = "n") →
        ask_user_confirmation (response :: rest) = some false) ∧
    (∀ (response : String) (rest : List String),
        ¬(pyStrip (pyLower response) = "yes" ∨ pyStrip (pyLower response) = "y") →
        ¬(pyStrip (pyLower response) = "no" ∨ pyStrip (pyLower response) = "n") →
        ask_user_confirmation (response :: rest) = ask_user_confirmation rest) ∧
    (∀ (inputs : List String) (config : Config) (n width height steps : Int)
        (model : String) (rz : Bool) (env : String → Nat → HttpOutcome)
        (b64 : String → Except String Bytes) (d : Bytes → Except String Unit)
        (pf : String → Nat → String) (initF : String → List String),
      ask_user_confirmation inputs = some false →
      (main_run inputs config n width height steps model rz env b64 d pf initF).requests
          = [] ∧
      (main_run inputs config n width height steps model rz env b64 d pf initF).dirsMade
          = [] ∧
      (main_run inputs config n width height steps model rz env b64 d pf initF).outcome
          = .cancelled ∧
      (main_run inputs config n width height steps model rz env b64 d pf initF).exitCode
          = 0) := by
  refine ⟨?_, ?_, ?_, ?_⟩
  · intro r rest h
    simp [ask_user_confirmation, h]
  · intro r rest h
    rcases h with h | h <;> simp [ask_user_confirmation, h]
  · intro r rest h1 h2
    simp [ask_user_confirmation, h1, h2]
  · intro inputs config n width height steps model rz env b64 d pf initF hno
    simp [main_run, hno]

/-- Witness for C8 at a script that first answers ambiguously and then answers N. -/
theorem c8_confirmation_gate_witness :
    ask_user_confirmation ["maybe", " N "] = some false ∧
    ((main_run ["maybe", " N "] cfg1 1 512 512 1 "schnell" false env200 b64stub
        decodeOk promptStub emptyFs).requests = [] ∧
     (main_run ["maybe", " N "] cfg1 1 512 512 1 "schnell" false env200 b64stub
        decodeOk promptStub emptyFs).dirsMade = [] ∧
     (main_run ["maybe", " N "] cfg1 1 512 512 1 "schnell" false env200 b64stub
        decodeOk promptStub emptyFs).outcome = .cancelled ∧
     (main_run ["maybe", " N "] cfg1 1 512 512 1 "schnell" false env200 b64stub
        decodeOk promptStub emptyFs).exitCode = 0) :=
  ⟨by decide, c8_confirmation_gate.2.2.2 ["maybe", " N "] cfg1 1 512 512 1 "schnell"
    false env200 b64stub decodeOk promptStub emptyFs (by decide)⟩

/-- C4 is false as stated: with the invalid model foo the run is not rejected —
it proceeds through the confirmation prompt, creates the group directory,
completes normally with exit status 0 and reports zero generated images; it is
true that no network request is issued. -/
theorem c4_counterexample :
    (main_run ["yes"] cfg1 1 512 512 1 "foo" false env200 b64stub decodeOk
      promptStub emptyFs).exitCode = 0 ∧
    (main_run ["yes"] cfg1 1 512 512 1 "foo" false env200 b64stub decodeOk
      promptStub emptyFs).outcome.isCompleted = true ∧
    (main_run ["yes"] cfg1 1 512 512 1 "foo" false env200 b64stub decodeOk
      promptStub emptyFs).outcome.generatedCount = some 0 ∧
    (main_run ["yes"] cfg1 1 512 512 1 "foo" false env200 b64stub decodeOk
      promptStub emptyFs).dirsMade = ["generated_images/g"] ∧
    (main_run ["yes"] cfg1 1 512 512 1 "foo" false env200 b64stub decodeOk
      promptStub emptyFs).requests = [] := by
  exact ⟨by decide, by decide, by decide, by decide, by decide⟩

/-- C4 amended: for every model identifier outside the set containing schnell
and dev, a confirmed run issues no network request and writes no image file
(each generate_image call returns None before contacting the network), but the
run is not rejected: it creates every group directory, completes normally with
zero successes, zero actual cost, unchanged folders, and exit status 0. -/
theorem c4_invalid_model (inputs : List String) (config : Config)
    (n width height steps : Int) (model : String) (rz : Bool)
    (env : String → Nat → HttpOutcome) (b64 : String → Except String Bytes)
    (d : Bytes → Except String Unit) (pf : String → Nat → String)
    (initF : String → List String)
    (h1 : model ≠ "schnell") (h2 : model ≠ "dev")
    (hc : ask_user_confirmation inputs = some true) :
    (main_run inputs config n width height steps model rz env b64 d pf initF).requests
        = [] ∧
    (main_run inputs config n width height steps model rz env b64 d pf initF).dirsMade
        = config.countries.map (fun gc => "generated_images/" ++ gc.1) ∧
    (main_run inputs config n width height steps model rz env b64 d pf initF).outcome
        = .completed 0 0 (config.countries.map fun gc => (gc.1, initF gc.1)) ∧
    (main_run inputs config n width height steps model rz env b64 d pf initF).exitCode
        = 0 := by
  have hruns : run_groups env b64 d pf config n width height steps model rz initF
      = config.countries.map fun gc =>
          ⟨[], "generated_images/" ++ gc.1, .ok (0, initF gc.1)⟩ := by
    unfold run_groups
    exact List.map_congr_left fun gc _ =>
      group_invalid h1 h2 (env gc.1) b64 d (pf gc.1) gc.1 n.toNat width height steps
        rz (initF gc.1)
  simp only [main_run, hc, hruns, List.map_map]
  have hg : gatherE (config.countries.map
        ((fun r => r.result) ∘ fun gc : String × List String =>
          (⟨[], "generated_images/" ++ gc.1, .ok (0, initF gc.1)⟩ : GroupReturn)))
      = .ok (config.countries.map fun gc : String × List String => ((0 : Nat), initF gc.1)) :=
    gatherE_map_ok (fun gc : String × List String => ((0 : Nat), initF gc.1))
      config.countries
  rw [hg]
  dsimp only
  refine ⟨by simp, rfl, ?_, rfl⟩
  have hsum : (List.map ((fun r : Nat × List String => r.1)
        ∘ fun gc : String × List String => ((0 : Nat), initF gc.1))
        config.countries).sum = 0 := sum_map_zero config.countries
  have hsnd : List.map ((fun r : Nat × List String => r.2)
        ∘ fun gc : String × List String => ((0 : Nat), initF gc.1)) config.countries
      = config.countries.map fun gc => initF gc.1 := rfl
  rw [List.map_map, List.map_map, hsum, hsnd, List.zip_map']
  simp

/-- Witness for C4 at a confirmed one-group run with model foo. -/
theorem c4_invalid_model_witness :
    (("foo" : String) ≠ "schnell" ∧ ("foo" : String) ≠ "dev" ∧
      ask_user_confirmation ["yes"] = some true) ∧
    ((main_run ["yes"] cfg1 1 512 512 1 "foo" false env200 b64stub decodeOk
        promptStub emptyFs).requests = [] ∧
     (main_run ["yes"] cfg1 1 512 512 1 "foo" false env200 b64stub decodeOk
        promptStub emptyFs).dirsMade
        = cfg1.countries.map (fun gc => "generated_images/" ++ gc.1) ∧
     (main_run ["yes"] cfg1 1 512 512 1 "foo" false env200 b64stub decodeOk
        promptStub emptyFs).outcome
        = .completed 0 0 (cfg1.countries.map fun gc => (gc.1, emptyFs gc.1)) ∧
     (main_run ["yes"] cfg1 1 512 512 1 "foo" false env200 b64stub decodeOk
        promptStub emptyFs).exitCode = 0) :=
  ⟨⟨by decide, by decide, by decide⟩,
    c4_invalid_model ["yes"] cfg1 1 512 512 1 "foo" false env200 b64stub decodeOk
      promptStub emptyFs (by decide) (by decide) (by decide)⟩

/-- C1 is false as stated.  First run: steps = 0, one attempt which fails, yet
actual cost equals planned cost (both zero), contradicting equality only when
no attempt fails.  Second and third runs: a negative width, respectively a
negative n_per_country, make the planned cost negative while the actual cost
is zero, contradicting actual_cost less-or-equal planned_cost. -/
theorem c1_counterexample :
    ((main_run ["yes"] cfg1 1 512 512 0 "schnell" false env500 b64stub decodeOk
        promptStub emptyFs).outcome.generatedCount = some 0 ∧
     (main_run ["yes"] cfg1 1 512 512 0 "schnell" false env500 b64stub decodeOk
        promptStub emptyFs).totalImages = 1 ∧
     (main_run ["yes"] cfg1 1 512 512 0 "schnell" false env500 b64stub decodeOk
        promptStub emptyFs).outcome.actualCost
        = some ((main_run ["yes"] cfg1 1 512 512 0 "schnell" false env500 b64stub
            decodeOk promptStub emptyFs).totalCost)) ∧
    ((main_run ["yes"] cfg1 1 (-512) 512 1 "schnell" false env500 b64stub decodeOk
        promptStub emptyFs).outcome.actualCost = some 0 ∧
     (main_run ["yes"] cfg1 1 (-512) 512 1 "schnell" false env500 b64stub decodeOk
        promptStub emptyFs).totalCost < 0) ∧
    ((main_run ["yes"] cfg1 (-1) 512 512 1 "schnell" false env500 b64stub decodeOk
        promptStub emptyFs).outcome.actualCost = some 0 ∧
     (main_run ["yes"] cfg1 (-1) 512 512 1 "schnell" false env500 b64stub decodeOk
        promptStub emptyFs).totalCost < 0) := by
  refine ⟨⟨by decide, by decide, ?_⟩, ⟨?_, ?_⟩, ⟨?_, ?_⟩⟩
  · have e1 : (main_run ["yes"] cfg1 1 512 512 0 "schnell" false env500 b64stub
        decodeOk promptStub emptyFs).outcome.actualCost
        = some (((0 : Nat) : ℚ)
            * calculate_cost ((512 : Int) : ℚ) ((512 : Int) : ℚ) ((0 : Int) : ℚ)) := rfl
    have e2 : (main_run ["yes"] cfg1 1 512 512 0 "schnell" false env500 b64stub
        decodeOk promptStub emptyFs).totalCost
        = ((calculate_total_images cfg1 1 : Int) : ℚ)
            * calculate_cost ((512 : Int) : ℚ) ((512 : Int) : ℚ) ((0 : Int) : ℚ) := rfl
    rw [e1, e2]
    simp [calculate_cost, calculate_total_images, cfg1]
  · have e1 : (main_run ["yes"] cfg1 1 (-512) 512 1 "schnell" false env500 b64stub
        decodeOk promptStub emptyFs).outcome.actualCost
        = some (((0 : Nat) : ℚ)
            * calculate_cost ((-512 : Int) : ℚ) ((512 : Int) : ℚ) ((1 : Int) : ℚ)) := rfl
    rw [e1]
    simp
  · have e2 : (main_run ["yes"] cfg1 1 (-512) 512 1 "schnell" false env500 b64stub
        decodeOk promptStub emptyFs).totalCost
        = ((calculate_total_images cfg1 1 : Int) : ℚ)
            * calculate_cost ((-512 : Int) : ℚ) ((512 : Int) : ℚ) ((1 : Int) : ℚ) := rfl
    rw [e2]
    norm_num [calculate_cost, calculate_total_images, cfg1]
  · have e1 : (main_run ["yes"] cfg1 (-1) 512 512 1 "schnell" false env500 b64stub
        decodeOk promptStub emptyFs).outcome.actualCost
        = some (((0 : Nat) : ℚ)
            * calculate_cost ((512 : Int) : ℚ) ((512 : Int) : ℚ) ((1 : Int) : ℚ)) := rfl
    rw [e1]
    simp
  · have e2 : (main_run ["yes"] cfg1 (-1) 512 512 1 "schnell" false env500 b64stub
        decodeOk promptStub emptyFs).totalCost
        = ((calculate_total_images cfg1 (-1) : Int) : ℚ)
            * calculate_cost ((512 : Int) : ℚ) ((512 : Int) : ℚ) ((1 : Int) : ℚ) := rfl
    rw [e2]
    norm_num [calculate_cost, calculate_total_images, cfg1]

/-- C1 amended: for every completed run the reported actual cost is exactly the
number of succeeded attempts times the unit cost; when n_per_country, width,
height and steps are all nonnegative, actual_cost is at most planned_cost; and
when additionally the unit cost is positive, equality of the two costs forces
the succeeded count to equal the planned (attempted) count. -/
theorem c1_actual_cost (inputs : List String) (config : Config)
    (n width height steps : Int) (model : String) (rz : Bool)
    (env : String → Nat → HttpOutcome) (b64 : String → Except String Bytes)
    (d : Bytes → Except String Unit) (pf : String → Nat → String)
    (initF : String → List String) (gen : Nat) (ac : ℚ)
    (fold : List (String × List String))
    (hc : (main_run inputs config n width height steps model rz env b64 d pf initF).outcome
      = .completed gen ac fold) :
    ac = (gen : ℚ) * calculate_cost (width : ℚ) (height : ℚ) (steps : ℚ) ∧
    (0 ≤ n → 0 ≤ width → 0 ≤ height → 0 ≤ steps →
      ac ≤ (main_run inputs config n width height steps model rz env b64 d pf
        initF).totalCost) ∧
    (0 ≤ n → 0 < calculate_cost (width : ℚ) (height : ℚ) (steps : ℚ) →
      ac = (main_run inputs config n width height steps model rz env b64 d pf
        initF).totalCost →
      (gen : Int) = calculate_total_images config n) := by
  obtain ⟨hask, results, heq, hgen, hac, hfold⟩ := main_run_completed hc
  have hbound : gen ≤ config.countries.length * n.toNat := by
    have hmem : ∀ x ∈ results.map (fun r => r.1), x ≤ n.toNat := by
      intro x hx
      obtain ⟨r, hr, hx1⟩ := List.mem_map.mp hx
      have hok := gatherE_ok_mem heq r hr
      obtain ⟨gr, hgr, hgrr⟩ := List.mem_map.mp hok
      obtain ⟨gc, _, hgr2⟩ := List.mem_map.mp hgr
      rw [← hgr2] at hgrr
      rw [← hx1]
      exact group_count_le hgrr
    have hsum := List.sum_le_card_nsmul (results.map fun r => r.1) n.toNat hmem
    have hlen : (results.map fun r => r.1).length = config.countries.length := by
      rw [List.length_map]
      have := gatherE_ok_length heq
      simpa [run_groups] using this
    rw [hgen]
    calc (results.map fun r => r.1).sum
        ≤ (results.map fun r => r.1).length • n.toNat := hsum
      _ = config.countries.length * n.toNat := by rw [hlen, smul_eq_mul]
  refine ⟨hac, ?_, ?_⟩
  · intro hn hw hh2 hs
    rw [hac, main_run_totalCost]
    have hcast : ((calculate_total_images config n : Int) : ℚ)
        = ((config.countries.length * n.toNat : Nat) : ℚ) := by
      unfold calculate_total_images
      push_cast
      congr 1
      exact_mod_cast (Int.toNat_of_nonneg hn).symm
    rw [hcast]
    exact mul_le_mul_of_nonneg_right (by exact_mod_cast hbound)
      (calculate_cost_nonneg (by exact_mod_cast hw) (by exact_mod_cast hh2)
        (by exact_mod_cast hs))
  · intro hn hpos heqc
    rw [hac, main_run_totalCost] at heqc
    have hcancel := mul_right_cancel₀ (ne_of_gt hpos) heqc
    exact_mod_cast hcancel

/-- Witness for C1 amended at a completed one-group run with one success. -/
theorem c1_actual_cost_witness :
    ((main_run ["yes"] cfg1 1 512 512 1 "schnell" false env200 b64stub decodeOk
        promptStub emptyFs).outcome
      = .completed 1 (((1 : Nat) : ℚ)
          * calculate_cost ((512 : Int) : ℚ) ((512 : Int) : ℚ) ((1 : Int) : ℚ))
          [("g", ["g1.png"])]) ∧
    ((((1 : Nat) : ℚ)
        * calculate_cost ((512 : Int) : ℚ) ((512 : Int) : ℚ) ((1 : Int) : ℚ))
      = ((1 : Nat) : ℚ) * calculate_cost ((512 : Int) : ℚ) ((512 : Int) : ℚ)
          ((1 : Int) : ℚ) ∧
     ((0 : Int) ≤ 1 → (0 : Int) ≤ 512 → (0 : Int) ≤ 512 → (0 : Int) ≤ 1 →
      (((1 : Nat) : ℚ)
          * calculate_cost ((512 : Int) : ℚ) ((512 : Int) : ℚ) ((1 : Int) : ℚ))
        ≤ (main_run ["yes"] cfg1 1 512 512 1 "schnell" false env200 b64stub decodeOk
            promptStub emptyFs).totalCost) ∧
     ((0 : Int) ≤ 1
        → 0 < calculate_cost ((512 : Int) : ℚ) ((512 : Int) : ℚ) ((1 : Int) : ℚ) →
      (((1 : Nat) : ℚ)
          * calculate_cost ((512 : Int) : ℚ) ((512 : Int) : ℚ) ((1 : Int) : ℚ))
        = (main_run ["yes"] cfg1 1 512 512 1 "schnell" false env200 b64stub decodeOk
            promptStub emptyFs).totalCost →
      ((1 : Nat) : Int) = calculate_total_images cfg1 1)) :=
  ⟨rfl, c1_actual_cost ["yes"] cfg1 1 512 512 1 "schnell" false env200 b64stub
    decodeOk promptStub emptyFs 1
    (((1 : Nat) : ℚ) * calculate_cost ((512 : Int) : ℚ) ((512 : Int) : ℚ)
      ((1 : Int) : ℚ))
    [("g", ["g1.png"])] rfl⟩

end AsyncImageGen
